import Mathlib

/-!
Shallow embedding of the checkout transaction engine of the pos-supermarket
backend (Express server in src/backend/prisma/seed.ts, third embedded
document).  Money amounts are modelled as exact rationals; the JavaScript
number semantics relevant to the claims (NaN propagation through the
`Number(lineIndex)` coercion and array indexing/splicing) are modelled
explicitly by the `JsNum` type.
-/

namespace Pos

/-- A JavaScript number as relevant to index coercion: `NaN` or a rational. -/
inductive JsNum where
  | nan : JsNum
  | num : ℚ → JsNum
deriving DecidableEq

/-- JS comparison `x < 0` (false for NaN). -/
def jsLtZero : JsNum → Bool
  | .nan => false
  | .num q => decide (q < 0)

/-- JS comparison `x >= n` (false for NaN). -/
def jsGe (j : JsNum) (n : ℚ) : Bool :=
  match j with
  | .nan => false
  | .num q => decide (n ≤ q)

/-- JS array element lookup `arr[x]`: only a nonnegative integral number is a
valid index; `arr[NaN]` and fractional or negative indices are `undefined`. -/
def jsIndex : JsNum → Option Nat
  | .nan => none
  | .num q => if q.den = 1 ∧ 0 ≤ q.num then some q.num.toNat else none

/-- JS truncation toward zero (`ToIntegerOrInfinity` on a finite value). -/
def jsTrunc (q : ℚ) : Int :=
  if 0 ≤ q then Int.floor q else -(Int.floor (-q))

/-- Start index actually used by `Array.prototype.splice(start, 1)`:
`ToIntegerOrInfinity(NaN) = 0`; negative starts count from the end, clamped. -/
def spliceIndex (j : JsNum) (len : Nat) : Nat :=
  match j with
  | .nan => 0
  | .num q =>
    let r := jsTrunc q
    if r < 0 then (max ((len : Int) + r) 0).toNat else min r.toNat len

/-- In-memory cart line (interface CartLine of the backend). -/
structure CartLine where
  itemId : Nat
  quantity : ℚ
  unitPrice : ℚ
  discount : ℚ
  taxRateId : Option Nat
  taxAmount : ℚ
  lineTotal : ℚ
  name : Option String := none
deriving DecidableEq

/-- In-memory cart (interface Cart of the backend). -/
structure Cart where
  id : String
  lines : List CartLine
deriving DecidableEq

/-- The process-wide `carts` record, keyed by cart id. -/
abbrev Store := List (String × Cart)

/-- `carts[cartId]` (undefined when the key is absent). -/
def storeGet : Store → String → Option Cart
  | [], _ => none
  | p :: t, cartId => if p.1 = cartId then some p.2 else storeGet t cartId

/-- Rebinding `carts[cartId]`'s entry to the mutated cart object. -/
def storeSet : Store → String → Cart → Store
  | [], _, _ => []
  | p :: t, cartId, c =>
    if p.1 = cartId then (p.1, c) :: storeSet t cartId c else p :: storeSet t cartId c

/-- `delete carts[cartId]`. -/
def storeDelete : Store → String → Store
  | [], _ => []
  | p :: t, cartId =>
    if p.1 = cartId then storeDelete t cartId else p :: storeDelete t cartId

/-- Error outcomes the checkout endpoints can report (their JSON error
strings: 'Cart not found', 'Item not found', 'Line not found', 'Cart empty',
and a failure propagated from the persistence layer). -/
inductive PosError where
  | cartNotFound
  | itemNotFound
  | lineNotFound
  | cartEmpty
  | persistenceFailed
deriving DecidableEq

/-- Item snapshot used by checkout/add (fields read from `prisma.item`). -/
structure Item where
  id : Nat
  name : String
  mrp : ℚ
  taxId : Option Nat
deriving DecidableEq

/-- The tax table (`prisma.tax.findUnique` by id, returning the rate). -/
abbrev TaxTable := Nat → Option ℚ

/-- POST /api/checkout/add, line construction: unit price is the item MRP;
if the item references a tax and the lookup succeeds, `taxAmount =
unitPrice * qty * rate / 100`; `lineTotal = unitPrice * qty + taxAmount`;
discount starts at 0.  The new line is appended to the cart. -/
def addLineCore (taxTable : TaxTable) (item : Item) (qty : ℚ) (cart : Cart) : Cart :=
  let unitPrice := item.mrp
  let found := item.taxId.bind (fun tid => (taxTable tid).map (fun r => (tid, r)))
  let taxRateId := found.map Prod.fst
  let taxAmount := match found with
    | some (_, r) => unitPrice * qty * r / 100
    | none => 0
  let line : CartLine :=
    { itemId := item.id, quantity := qty, unitPrice := unitPrice,
      discount := 0, taxRateId := taxRateId, taxAmount := taxAmount,
      lineTotal := unitPrice * qty + taxAmount, name := some item.name }
  { cart with lines := cart.lines ++ [line] }

/-- POST /api/checkout/discount: for every line, `d = unitPrice * quantity *
(discountPercent / 100)` and `lineTotal = unitPrice * quantity - d +
taxAmount`; `taxAmount` itself is left as it was. -/
def discountCore (discountPercent : ℚ) (cart : Cart) : Cart :=
  { cart with lines := cart.lines.map (fun l =>
      let d := (l.unitPrice * l.quantity) * (discountPercent / 100)
      let t := l.unitPrice * l.quantity - d + l.taxAmount
      { l with discount := d, lineTotal := t }) }

/-- The tax-rate percentage used when repricing a line: looked up from the
line's `taxRateId` when set (`tx?.rate ?? 0`), else 0. -/
def effRate (taxTable : TaxTable) (l : CartLine) : ℚ :=
  match l.taxRateId with
  | some tid => (taxTable tid).getD 0
  | none => 0

/-- The line updateLine writes back in its update path: the provided fields
overwrite the stored ones, then tax and total are recomputed as
`taxAmount = (base - discount) * (rate / 100)` and
`lineTotal = base - discount + taxAmount` with `base = unitPrice * quantity`
and the rate looked up from the line's unchanged taxRateId. -/
def repricedLine (taxTable : TaxTable) (line : CartLine)
    (quantity unitPrice discount : Option ℚ) : CartLine :=
  let line1 := { line with
    quantity := quantity.getD line.quantity,
    unitPrice := unitPrice.getD line.unitPrice,
    discount := discount.getD line.discount }
  let rate := effRate taxTable line1
  let base := line1.unitPrice * line1.quantity
  let taxAmount := (base - line1.discount) * (rate / 100)
  { line1 with
    taxAmount := taxAmount,
    lineTotal := base - line1.discount + taxAmount }

/-- POST /api/checkout/updateLine: looks the line up by `Number(lineIndex)`;
a missing element is 'Line not found'.  A provided quantity ≤ 0 deletes the
line.  Otherwise the line is repriced in place. -/
def updateLineCore (taxTable : TaxTable) (lineIndex : JsNum)
    (quantity unitPrice discount : Option ℚ) (cart : Cart) : Except PosError Cart :=
  match jsIndex lineIndex with
  | none => .error .lineNotFound
  | some i =>
    match cart.lines.get? i with
    | none => .error .lineNotFound
    | some line =>
      if quantity.any (fun q => decide (q ≤ 0)) then
        .ok { cart with lines := cart.lines.eraseIdx i }
      else
        .ok { cart with
          lines := cart.lines.set i (repricedLine taxTable line quantity unitPrice discount) }

/-- POST /api/checkout/removeLine: `idx = Number(lineIndex)`; rejects with
'Line not found' when `idx < 0 || idx >= cart.lines.length` (both comparisons
false for NaN), then `cart.lines.splice(idx, 1)`. -/
def removeLineCore (lineIndex : JsNum) (cart : Cart) : Except PosError Cart :=
  if jsLtZero lineIndex || jsGe lineIndex (cart.lines.length : ℚ) then
    .error .lineNotFound
  else
    .ok { cart with lines := cart.lines.eraseIdx (spliceIndex lineIndex cart.lines.length) }

/-- Endpoint wrapper: cart lookup for /api/checkout/add; `itemLookup` is the
result of the barcode / itemId resolution against the catalog. -/
def checkoutAddE (taxTable : TaxTable) (store : Store) (cartId : String)
    (itemLookup : Option Item) (qty : ℚ) : Except PosError Store :=
  match storeGet store cartId with
  | none => .error .cartNotFound
  | some cart =>
    match itemLookup with
    | none => .error .itemNotFound
    | some item => .ok (storeSet store cartId (addLineCore taxTable item qty cart))

/-- Endpoint wrapper: cart lookup for /api/checkout/discount. -/
def checkoutDiscountE (store : Store) (cartId : String) (discountPercent : ℚ) :
    Except PosError Store :=
  match storeGet store cartId with
  | none => .error .cartNotFound
  | some cart => .ok (storeSet store cartId (discountCore discountPercent cart))

/-- Endpoint wrapper: cart lookup for /api/checkout/updateLine. -/
def updateLineE (taxTable : TaxTable) (store : Store) (cartId : String)
    (lineIndex : JsNum) (quantity unitPrice discount : Option ℚ) :
    Except PosError Store :=
  match storeGet store cartId with
  | none => .error .cartNotFound
  | some cart =>
    (updateLineCore taxTable lineIndex quantity unitPrice discount cart).map
      (storeSet store cartId)

/-- Endpoint wrapper: cart lookup for /api/checkout/removeLine. -/
def removeLineE (store : Store) (cartId : String) (lineIndex : JsNum) :
    Except PosError Store :=
  match storeGet store cartId with
  | none => .error .cartNotFound
  | some cart => (removeLineCore lineIndex cart).map (storeSet store cartId)

/-- One posted tender in the body of POST /api/checkout/complete. -/
structure PaymentReq where
  method : String
  amount : ℚ
  reference : Option String
deriving DecidableEq

/-- A row of the paymentMethod table. -/
structure PaymentMethod where
  code : String
  name : String
deriving DecidableEq

/-- A persisted payment row of a receipt. -/
structure PaymentRecord where
  amount : ℚ
  reference : Option String
  status : String
  methodCode : String
deriving DecidableEq

/-- A persisted receipt line (snapshot of the cart line). -/
structure ReceiptLine where
  itemId : Nat
  quantity : ℚ
  unitPrice : ℚ
  discount : ℚ
  taxAmount : ℚ
  lineTotal : ℚ
  taxRateId : Option Nat
deriving DecidableEq

/-- A persisted receipt (created with its lines and payments in one nested
`prisma.receipt.create`). -/
structure Receipt where
  receiptNumber : String
  customerId : Option Nat
  totalBeforeDiscount : ℚ
  totalDiscount : ℚ
  totalTax : ℚ
  totalAmount : ℚ
  cgst : ℚ
  sgst : ℚ
  igst : ℚ
  cess : ℚ
  status : String
  lines : List ReceiptLine
  payments : List PaymentRecord
deriving DecidableEq

/-- A stock ledger row (`prisma.stockLedger.create`). -/
structure StockEntry where
  itemId : Nat
  quantity : ℚ
  unitCost : ℚ
  type : String
  reference : String
deriving DecidableEq

/-- Persistent state touched by checkout/complete. -/
structure Db where
  methods : List PaymentMethod
  receipts : List Receipt
  stock : List StockEntry
deriving DecidableEq

/-- ASCII uppercase of a string (model of `.toUpperCase()` on method
codes). -/
def jsUpper (s : String) : String := ⟨s.data.map Char.toUpper⟩

/-- `String(p.method || '').toUpperCase() || 'CASH'`. -/
def methodNameOf (m : String) : String :=
  let s := jsUpper m
  if s = "" then "CASH" else s

/-- Resolve one posted method code against the paymentMethod table: find by
code or name; when absent, a new row is created on the fly with the posted
code as both code and name. -/
def resolveMethod (methods : List PaymentMethod) (m : String) :
    List PaymentMethod × PaymentMethod :=
  let code := methodNameOf m
  match methods.find? (fun pm => pm.code == code || pm.name == code) with
  | some pm => (methods, pm)
  | none =>
    let pm : PaymentMethod := { code := code, name := code }
    (methods ++ [pm], pm)

/-- The `createPayments` loop: builds one payment row per posted tender,
status 'SUCCESS', threading the (possibly growing) method table. -/
def buildPayments (methods : List PaymentMethod) :
    List PaymentReq → List PaymentMethod × List PaymentRecord
  | [] => (methods, [])
  | p :: ps =>
    let r1 := resolveMethod methods p.method
    let r2 := buildPayments r1.1 ps
    (r2.1, { amount := p.amount, reference := p.reference,
             status := "SUCCESS", methodCode := r1.2.code } :: r2.2)

/-- Snapshot of a cart line persisted on the receipt, field for field. -/
def receiptLineOf (l : CartLine) : ReceiptLine :=
  { itemId := l.itemId, quantity := l.quantity, unitPrice := l.unitPrice,
    discount := l.discount, taxAmount := l.taxAmount, lineTotal := l.lineTotal,
    taxRateId := l.taxRateId }

/-- The stock ledger row written per settled line:
`quantity: -Math.abs(l.quantity)`, `reference: receipt.receiptNumber`. -/
def stockEntryOf (receiptNumber : String) (l : CartLine) : StockEntry :=
  { itemId := l.itemId, quantity := -|l.quantity|, unitCost := 0,
    type := "SALE", reference := receiptNumber }

/-- Outcome of POST /api/checkout/complete: the persistent state, the cart
store, and the HTTP-level result. -/
structure CompleteResult where
  db : Db
  store : Store
  outcome : Except PosError Receipt

/-- POST /api/checkout/complete with an explicit persistence-failure oracle.
Persistence operation 0 is the single nested `prisma.receipt.create` (the
receipt together with all its lines and payments); operation `i + 1` is the
`prisma.stockLedger.create` for line `i`.  `failAt = some k` makes operation
`k` throw; earlier writes are not rolled back (there is no enclosing
transaction), the catch handler answers status 400 and the cart is kept.
The cart is removed from the store only after every write succeeded.
Validation: missing cart → 'Cart not found'; no lines → 'Cart empty'.
There is no payment-sufficiency, tender-amount or method validation. -/
def checkoutCompleteE (failAt : Option Nat) (db : Db) (store : Store)
    (cartId : String) (payments : List PaymentReq) (receiptNumber : String) :
    CompleteResult :=
  match storeGet store cartId with
  | none => ⟨db, store, .error .cartNotFound⟩
  | some cart =>
    if cart.lines.isEmpty then ⟨db, store, .error .cartEmpty⟩
    else
      let totalBeforeDiscount := (cart.lines.map (fun l => l.unitPrice * l.quantity)).sum
      let totalDiscount := (cart.lines.map (fun l => l.discount)).sum
      let totalTax := (cart.lines.map (fun l => l.taxAmount)).sum
      let totalAmount := (cart.lines.map (fun l => l.lineTotal)).sum
      let built := buildPayments db.methods payments
      let db1 : Db := { db with methods := built.1 }
      if failAt = some 0 then ⟨db1, store, .error .persistenceFailed⟩
      else
        let receipt : Receipt :=
          { receiptNumber := receiptNumber, customerId := none,
            totalBeforeDiscount := totalBeforeDiscount,
            totalDiscount := totalDiscount, totalTax := totalTax,
            totalAmount := totalAmount,
            cgst := totalTax / 2, sgst := totalTax / 2, igst := 0, cess := 0,
            status := "COMPLETED",
            lines := cart.lines.map receiptLineOf,
            payments := built.2 }
        let db2 : Db := { db1 with receipts := db1.receipts ++ [receipt] }
        match failAt with
        | some k =>
          if k - 1 < cart.lines.length then
            let db3 : Db := { db2 with
              stock := db2.stock ++ ((cart.lines.take (k - 1)).map (stockEntryOf receiptNumber)) }
            ⟨db3, store, .error .persistenceFailed⟩
          else
            let db3 : Db := { db2 with
              stock := db2.stock ++ (cart.lines.map (stockEntryOf receiptNumber)) }
            ⟨db3, storeDelete store cartId, .ok receipt⟩
        | none =>
          let db3 : Db := { db2 with
            stock := db2.stock ++ (cart.lines.map (stockEntryOf receiptNumber)) }
          ⟨db3, storeDelete store cartId, .ok receipt⟩

/-- Round-half-up to two decimal places (the spec's `round2`). -/
def round2 (q : ℚ) : ℚ := (⌊q * 100 + 1 / 2⌋ : ℚ) / 100

/-- The per-line pricing invariant of the spec. -/
def lineInv (l : CartLine) : Prop :=
  l.lineTotal = (l.unitPrice * l.quantity - l.discount) + l.taxAmount

/-- The cart's grand total: the sum of the line totals (the `totalAmount`
the settlement stores on the receipt). -/
def grandTotalOf (c : Cart) : ℚ := (c.lines.map CartLine.lineTotal).sum

/-- Total paid across a posted payment list. -/
def paidOf (ps : List PaymentReq) : ℚ := (ps.map PaymentReq.amount).sum

/-- The seeded tax table: GST 0 / 5 / 12 / 18 / 28 at ids 1..5. -/
def seedTaxTable : TaxTable := fun tid =>
  if tid = 1 then some 0
  else if tid = 2 then some 5
  else if tid = 3 then some 12
  else if tid = 4 then some 18
  else if tid = 5 then some 28
  else none

/-- The seeded payment-method table. -/
def seedMethods : List PaymentMethod :=
  [{ code := "CASH", name := "Cash" }, { code := "CARD", name := "Card" },
   { code := "UPI", name := "UPI" }, { code := "WALLET", name := "Wallet" },
   { code := "GIFT_CARD", name := "Gift Card" },
   { code := "STORE_CREDIT", name := "Store Credit" }]

/-- Persistent state before the demo settlements. -/
def emptyDb : Db := { methods := seedMethods, receipts := [], stock := [] }

/-- The seeded rice item: MRP 120, GST 5% (tax id 2). -/
def riceItem : Item := { id := 1, name := "Basmati Rice 1kg", mrp := 120, taxId := some 2 }

/-- The spec's scenario cart: one line, unitPrice 120, qty 1, tax 5%. -/
def demoCart : Cart := addLineCore seedTaxTable riceItem 1 { id := "c1", lines := [] }

def demoStore : Store := [("c1", demoCart)]

/-- The single line of `demoCart` as the add endpoint builds it. -/
def demoLine : CartLine :=
  { itemId := 1, quantity := 1, unitPrice := 120, discount := 0,
    taxRateId := some 2, taxAmount := 6, lineTotal := 126,
    name := some "Basmati Rice 1kg" }

/-- A one-line cart with literal field values (equal to `demoCart`). -/
def wCart : Cart := { id := "w", lines := [demoLine] }

def wStore : Store := [("w", wCart)]

/-- A line with a 5% tax rate attached, used to exercise repricing through
updateLine. -/
def tinyLine : CartLine :=
  { itemId := 1, quantity := 1, unitPrice := 120, discount := 0,
    taxRateId := some 2, taxAmount := 6, lineTotal := 126 }

/-- A cart whose single line has a tax rate of 5% attached. -/
def tinyCart : Cart := { id := "c2", lines := [tinyLine] }

/-- A cart holding a line with negative quantity, as produced by the add
endpoint when the posted qty is -2 (the endpoint does not validate qty). -/
def negCart : Cart := addLineCore seedTaxTable riceItem (-2) { id := "c9", lines := [] }

theorem storeGet_storeSet_self (s : Store) (cid : String) (c c2 : Cart)
    (h : storeGet s cid = some c) : storeGet (storeSet s cid c2) cid = some c2 := by
  induction s with
  | nil => simp [storeGet] at h
  | cons p t ih =>
    by_cases hp : p.1 = cid
    · simp [storeGet, storeSet, hp]
    · simp only [storeGet, storeSet, hp, if_false] at h ⊢
      exact ih h

theorem storeGet_storeDelete_self (s : Store) (cid : String) :
    storeGet (storeDelete s cid) cid = none := by
  induction s with
  | nil => rfl
  | cons p t ih =>
    by_cases hp : p.1 = cid
    · simpa [storeDelete, hp] using ih
    · simpa [storeGet, storeDelete, hp] using ih

theorem buildPayments_amounts (ms : List PaymentMethod) (ps : List PaymentReq) :
    ((buildPayments ms ps).2).map PaymentRecord.amount = ps.map PaymentReq.amount := by
  induction ps generalizing ms with
  | nil => rfl
  | cons p t ih => simp [buildPayments, ih]

theorem jsIndex_num_natCast (i : Nat) : jsIndex (JsNum.num (i : ℚ)) = some i := by
  simp [jsIndex, Rat.den_natCast, Rat.num_natCast]

theorem buildPayments_statuses (ms : List PaymentMethod) (ps : List PaymentReq) :
    (((buildPayments ms ps).2).all fun p => p.status == "SUCCESS") = true := by
  induction ps generalizing ms with
  | nil => rfl
  | cons p t ih => simp [buildPayments, ih]

/-- C10: for every non-empty open cart, removeLine with a lineIndex that does
not coerce to a number (NaN after the `Number` conversion) does not fail with
LineNotFound: both bounds comparisons are false on NaN, so the check passes,
and `splice(NaN, 1)` treats the start as 0 and removes the first line. -/
theorem C10_removeLine_nan_removes_first (store : Store) (cartId : String) (cart : Cart)
    (hget : storeGet store cartId = some cart) (hne : cart.lines ≠ []) :
    removeLineE store cartId JsNum.nan
      = .ok (storeSet store cartId { cart with lines := cart.lines.tail }) ∧
    ({ cart with lines := cart.lines.tail } : Cart).lines.length + 1
      = cart.lines.length := by
  obtain ⟨cid2, lines⟩ := cart
  cases lines with
  | nil => simp at hne
  | cons a t =>
    constructor
    · simp [removeLineE, hget, removeLineCore, jsLtZero, jsGe, spliceIndex, Except.map]
    · simp

/-- C8: for every open cart and in-range line index, updateLine with a
quantity ≤ 0 deletes that line; a one-line cart reduces to zero lines and a
subsequent settlement attempt then fails with EmptyCart ('Cart empty'). -/
theorem C8_updateLine_nonpos_qty_deletes (taxTable : TaxTable) (store : Store)
    (cartId : String) (cart : Cart) (i : Nat) (line : CartLine)
    (q : ℚ) (u d : Option ℚ)
    (hget : storeGet store cartId = some cart)
    (hline : cart.lines.get? i = some line) (hq : q ≤ 0) :
    updateLineE taxTable store cartId (JsNum.num (i : ℚ)) (some q) u d
      = .ok (storeSet store cartId { cart with lines := cart.lines.eraseIdx i }) ∧
    (cart.lines.length = 1 → cart.lines.eraseIdx i = [] ∧
      ∀ failAt db payments rn,
        (checkoutCompleteE failAt db
            (storeSet store cartId { cart with lines := cart.lines.eraseIdx i })
            cartId payments rn).outcome = .error .cartEmpty) := by
  have hline2 : cart.lines[i]? = some line := by
    rw [← List.get?_eq_getElem?]; exact hline
  have hdel : updateLineCore taxTable (JsNum.num (i : ℚ)) (some q) u d cart
      = .ok { cart with lines := cart.lines.eraseIdx i } := by
    simp [updateLineCore, jsIndex_num_natCast, hline2, hq]
  refine ⟨by simp [updateLineE, hget, hdel, Except.map], fun hlen => ?_⟩
  have hlt : i < cart.lines.length := (List.get?_eq_some.mp hline).1
  have hi0 : i = 0 := by omega
  subst hi0
  have herase : cart.lines.eraseIdx 0 = [] := by
    cases hl : cart.lines with
    | nil => rfl
    | cons a t =>
      rw [hl] at hlen
      cases t with
      | nil => rfl
      | cons b t2 => simp at hlen
  refine ⟨herase, fun failAt db payments rn => ?_⟩
  rw [herase]
  have hset := storeGet_storeSet_self store cartId cart { cart with lines := [] } hget
  simp [checkoutCompleteE, hset]

/-- C6: each cart mutation (add line, update line, apply cart discount)
preserves, for every line of the cart, the invariant
`lineTotal = (unitPrice * quantity - discount) + taxAmount`,
computed with exact rational arithmetic. -/
theorem C6_line_invariant_preserved (taxTable : TaxTable) (item : Item)
    (qty percent : ℚ) (lineIndex : JsNum) (q u d : Option ℚ) (cart : Cart)
    (h : ∀ l ∈ cart.lines, lineInv l) :
    (∀ l ∈ (addLineCore taxTable item qty cart).lines, lineInv l) ∧
    (∀ l ∈ (discountCore percent cart).lines, lineInv l) ∧
    (∀ c2, updateLineCore taxTable lineIndex q u d cart = .ok c2 →
      ∀ l ∈ c2.lines, lineInv l) := by
  refine ⟨?_, ?_, ?_⟩
  · intro l hl
    rw [addLineCore] at hl
    simp only [List.mem_append, List.mem_singleton] at hl
    rcases hl with hl | hl
    · exact h l hl
    · subst hl
      simp [lineInv]
  · intro l hl
    simp only [discountCore, List.mem_map] at hl
    obtain ⟨a, _, rfl⟩ := hl
    simp [lineInv]
  · intro c2 hc2 l hl
    unfold updateLineCore at hc2
    split at hc2
    · exact absurd hc2 (by simp)
    · split at hc2
      · exact absurd hc2 (by simp)
      · split at hc2
        · simp only [Except.ok.injEq] at hc2
          subst hc2
          exact h l (List.eraseIdx_subset _ _ hl)
        · simp only [Except.ok.injEq] at hc2
          subst hc2
          rcases List.mem_or_eq_of_mem_set hl with h1 | h2
          · exact h l h1
          · subst h2
            simp [lineInv, repricedLine]

/-- Witness for C10: the one-line cart is non-empty, and removing with a NaN
index succeeds and drops its first line. -/
theorem C10_witness :
    wCart.lines ≠ [] ∧
    (removeLineE wStore "w" JsNum.nan
        = .ok (storeSet wStore "w" { wCart with lines := wCart.lines.tail }) ∧
      ({ wCart with lines := wCart.lines.tail } : Cart).lines.length + 1
        = wCart.lines.length) :=
  ⟨by decide,
   C10_removeLine_nan_removes_first wStore "w" wCart rfl (by decide)⟩

/-- Witness for C8: updateLine with quantity 0 on line 0 of a one-line cart
deletes it and a settlement attempt then reports 'Cart empty'. -/
theorem C8_witness :
    (storeGet wStore "w" = some wCart ∧
      wCart.lines.get? 0 = some demoLine ∧ (0 : ℚ) ≤ 0) ∧
    (updateLineE seedTaxTable wStore "w" (JsNum.num ((0 : Nat) : ℚ)) (some 0) none none
        = .ok (storeSet wStore "w" { wCart with lines := wCart.lines.eraseIdx 0 }) ∧
      (wCart.lines.length = 1 → wCart.lines.eraseIdx 0 = [] ∧
        ∀ failAt db payments rn,
          (checkoutCompleteE failAt db
              (storeSet wStore "w" { wCart with lines := wCart.lines.eraseIdx 0 })
              "w" payments rn).outcome = .error .cartEmpty)) :=
  ⟨⟨rfl, rfl, le_refl 0⟩,
   C8_updateLine_nonpos_qty_deletes seedTaxTable wStore "w" wCart 0 demoLine 0
     none none rfl rfl (le_refl 0)⟩

/-- Witness for C6: the one-line cart satisfies the invariant, and so do all
lines after an add, a 10% cart discount, and an updateLine. -/
theorem C6_witness :
    (∀ l ∈ wCart.lines, lineInv l) ∧
    ((∀ l ∈ (addLineCore seedTaxTable riceItem 1 wCart).lines, lineInv l) ∧
     (∀ l ∈ (discountCore 10 wCart).lines, lineInv l) ∧
     (∀ c2, updateLineCore seedTaxTable (JsNum.num 0) (some 2) none none wCart = .ok c2 →
       ∀ l ∈ c2.lines, lineInv l)) := by
  have h : ∀ l ∈ wCart.lines, lineInv l := by
    intro l hl
    have hd : wCart.lines = [demoLine] := rfl
    rw [hd] at hl
    simp only [List.mem_singleton] at hl
    subst hl
    show demoLine.lineTotal = (demoLine.unitPrice * demoLine.quantity - demoLine.discount)
      + demoLine.taxAmount
    norm_num [demoLine]
  exact ⟨h, C6_line_invariant_preserved seedTaxTable riceItem 1 10 (JsNum.num 0)
    (some 2) none none wCart h⟩

/-- C1 counterexample: on the spec's scenario cart (grand total 126.00) a
single CASH 100.00 tender is strictly below the grand total, yet the settle
operation succeeds and creates a receipt instead of failing with
InsufficientPayment. -/
theorem C1_counterexample :
    paidOf [⟨"CASH", 100, none⟩] < grandTotalOf demoCart ∧
    ((checkoutCompleteE none emptyDb demoStore "c1" [⟨"CASH", 100, none⟩] "R1").outcome.toOption.map
      Receipt.receiptNumber) = some "R1" := by
  constructor
  · norm_num [paidOf, grandTotalOf, demoCart, addLineCore, seedTaxTable, riceItem]
  · rfl

/-- C1 (corrected): the settle operation performs no payment-sufficiency
check: for every open cart with at least one line it succeeds and creates a
receipt for every payment list whatsoever (persistence permitting), even when
the total paid is strictly below the grand total. -/
theorem C1_complete_no_payment_check (db : Db) (store : Store) (cartId : String)
    (payments : List PaymentReq) (rn : String) (cart : Cart)
    (hget : storeGet store cartId = some cart) (hne : cart.lines ≠ []) :
    ∃ r, (checkoutCompleteE none db store cartId payments rn).outcome = .ok r ∧
      r.totalAmount = grandTotalOf cart := by
  have hie : cart.lines.isEmpty = false := by
    cases hl : cart.lines with
    | nil => exact absurd hl hne
    | cons a t => rfl
  simp only [checkoutCompleteE, hget, hie, Bool.false_eq_true, if_false,
    Option.some.injEq, reduceCtorEq, reduceIte]
  exact ⟨_, rfl, rfl⟩

/-- Witness for the corrected C1 at the one-line cart with a CASH 100
tender. -/
theorem C1_witness :
    (storeGet wStore "w" = some wCart ∧ wCart.lines ≠ []) ∧
    (∃ r, (checkoutCompleteE none emptyDb wStore "w" [⟨"CASH", 100, none⟩] "R1").outcome
        = .ok r ∧ r.totalAmount = grandTotalOf wCart) :=
  ⟨⟨rfl, by decide⟩,
   C1_complete_no_payment_check emptyDb wStore "w" [⟨"CASH", 100, none⟩] "R1" wCart rfl
     (by decide)⟩

/-- C2 counterexample: with the persistence oracle failing the first
stock-ledger write, settlement of the one-line scenario cart leaves a
persisted receipt with zero stock entries (one per line would be one), so a
receipt exists without its stock set. -/
theorem C2_counterexample :
    (checkoutCompleteE (some 1) emptyDb demoStore "c1" [⟨"CASH", 126, none⟩] "R2").db.receipts.length
      = 1 ∧
    (checkoutCompleteE (some 1) emptyDb demoStore "c1" [⟨"CASH", 126, none⟩] "R2").db.stock = [] ∧
    (checkoutCompleteE (some 1) emptyDb demoStore "c1" [⟨"CASH", 126, none⟩] "R2").outcome
      = .error .persistenceFailed ∧
    demoCart.lines.length = 1 :=
  ⟨rfl, rfl, rfl, rfl⟩

/-- C2 (corrected): the receipt with its lines and payments is one atomic
create (a failure there persists no receipt and no stock, and the cart
stays), but the per-line stock entries are written individually afterwards
with no enclosing transaction: a failure at stock write k+1 leaves the
receipt and exactly the first k stock entries persisted, with the cart still
in the store; only a fully successful run writes one stock entry per line. -/
theorem C2_stock_writes_not_atomic (db : Db) (store : Store) (cartId : String)
    (payments : List PaymentReq) (rn : String) (cart : Cart)
    (hget : storeGet store cartId = some cart) (hne : cart.lines ≠ []) :
    ((checkoutCompleteE (some 0) db store cartId payments rn).db.receipts = db.receipts ∧
     (checkoutCompleteE (some 0) db store cartId payments rn).db.stock = db.stock ∧
     (checkoutCompleteE (some 0) db store cartId payments rn).outcome
       = .error .persistenceFailed ∧
     storeGet (checkoutCompleteE (some 0) db store cartId payments rn).store cartId
       = some cart) ∧
    (∀ k : Nat, k < cart.lines.length →
      (checkoutCompleteE (some (k + 1)) db store cartId payments rn).db.receipts.length
        = db.receipts.length + 1 ∧
      (checkoutCompleteE (some (k + 1)) db store cartId payments rn).db.stock
        = db.stock ++ (cart.lines.take k).map (stockEntryOf rn) ∧
      (checkoutCompleteE (some (k + 1)) db store cartId payments rn).outcome
        = .error .persistenceFailed ∧
      storeGet (checkoutCompleteE (some (k + 1)) db store cartId payments rn).store cartId
        = some cart) ∧
    (checkoutCompleteE none db store cartId payments rn).db.stock
      = db.stock ++ cart.lines.map (stockEntryOf rn) := by
  have hie : cart.lines.isEmpty = false := by
    cases hl : cart.lines with
    | nil => exact absurd hl hne
    | cons a t => rfl
  refine ⟨⟨?_, ?_, ?_, ?_⟩, fun k hk => ?_, ?_⟩
  · simp [checkoutCompleteE, hget, hie]
  · simp [checkoutCompleteE, hget, hie]
  · simp [checkoutCompleteE, hget, hie]
  · simp [checkoutCompleteE, hget, hie]
  · refine ⟨?_, ?_, ?_, ?_⟩ <;>
      simp [checkoutCompleteE, hget, hie, hk, Nat.add_sub_cancel]
  · simp [checkoutCompleteE, hget, hie]

/-- Witness for the corrected C2 at the one-line cart. -/
theorem C2_witness :
    (storeGet wStore "w" = some wCart ∧ wCart.lines ≠ []) ∧
    (((checkoutCompleteE (some 0) emptyDb wStore "w" [] "R2").db.receipts = emptyDb.receipts ∧
      (checkoutCompleteE (some 0) emptyDb wStore "w" [] "R2").db.stock = emptyDb.stock ∧
      (checkoutCompleteE (some 0) emptyDb wStore "w" [] "R2").outcome
        = .error .persistenceFailed ∧
      storeGet (checkoutCompleteE (some 0) emptyDb wStore "w" [] "R2").store "w"
        = some wCart) ∧
     (∀ k : Nat, k < wCart.lines.length →
       (checkoutCompleteE (some (k + 1)) emptyDb wStore "w" [] "R2").db.receipts.length
         = emptyDb.receipts.length + 1 ∧
       (checkoutCompleteE (some (k + 1)) emptyDb wStore "w" [] "R2").db.stock
         = emptyDb.stock ++ (wCart.lines.take k).map (stockEntryOf "R2") ∧
       (checkoutCompleteE (some (k + 1)) emptyDb wStore "w" [] "R2").outcome
         = .error .persistenceFailed ∧
       storeGet (checkoutCompleteE (some (k + 1)) emptyDb wStore "w" [] "R2").store "w"
         = some wCart) ∧
     (checkoutCompleteE none emptyDb wStore "w" [] "R2").db.stock
       = emptyDb.stock ++ wCart.lines.map (stockEntryOf "R2")) :=
  ⟨⟨rfl, by decide⟩,
   C2_stock_writes_not_atomic emptyDb wStore "w" [] "R2" wCart rfl (by decide)⟩

/-- C3 counterexample: applying the 10% cart discount to the scenario cart
(one line, unitPrice 120, qty 1, tax 5%) yields discount 12.00 but leaves
taxAmount at 6.00 and sets lineTotal to 114.00 — not the claimed recomputed
taxAmount 5.40 and lineTotal 113.40. -/
theorem C3_counterexample :
    (discountCore 10 demoCart).lines.map (fun l => (l.discount, l.taxAmount, l.lineTotal))
      = [((12 : ℚ), (6 : ℚ), (114 : ℚ))] ∧
    (discountCore 10 demoCart).lines.map CartLine.taxAmount ≠ [(27 / 5 : ℚ)] ∧
    (discountCore 10 demoCart).lines.map CartLine.lineTotal ≠ [(567 / 5 : ℚ)] := by
  refine ⟨?_, ?_, ?_⟩ <;>
    norm_num [discountCore, demoCart, addLineCore, seedTaxTable, riceItem]

/-- C3 (corrected): applyCartDiscount sets each line's discount to percent%
of that line's pre-tax base and sets lineTotal to base − discount plus the
line's existing taxAmount; taxAmount itself is not recomputed and stays
unchanged (as do quantity and unitPrice). -/
theorem C3_discount_keeps_tax (percent : ℚ) (cart : Cart) (i : Nat) (l : CartLine)
    (h : cart.lines.get? i = some l) :
    ∃ l2, (discountCore percent cart).lines.get? i = some l2 ∧
      l2.discount = (l.unitPrice * l.quantity) * (percent / 100) ∧
      l2.taxAmount = l.taxAmount ∧
      l2.lineTotal = (l.unitPrice * l.quantity - l2.discount) + l2.taxAmount ∧
      l2.quantity = l.quantity ∧ l2.unitPrice = l.unitPrice := by
  refine ⟨{ l with
      discount := (l.unitPrice * l.quantity) * (percent / 100),
      lineTotal := l.unitPrice * l.quantity
        - (l.unitPrice * l.quantity) * (percent / 100) + l.taxAmount },
    ?_, rfl, rfl, rfl, rfl, rfl⟩
  show (cart.lines.map _).get? i = _
  rw [List.get?_eq_getElem?] at h ⊢
  rw [List.getElem?_map, h]
  rfl

/-- Witness for the corrected C3 at the one-line cart with a 10% discount. -/
theorem C3_witness :
    wCart.lines.get? 0 = some demoLine ∧
    (∃ l2, (discountCore 10 wCart).lines.get? 0 = some l2 ∧
      l2.discount = (demoLine.unitPrice * demoLine.quantity) * (10 / 100) ∧
      l2.taxAmount = demoLine.taxAmount ∧
      l2.lineTotal = (demoLine.unitPrice * demoLine.quantity - l2.discount) + l2.taxAmount ∧
      l2.quantity = demoLine.quantity ∧ l2.unitPrice = demoLine.unitPrice) :=
  ⟨rfl, C3_discount_keeps_tax 10 wCart 0 demoLine rfl⟩

/-- C4 counterexample: a 150% cart discount (outside [0,100]) is not rejected
with InvalidDiscount: the endpoint succeeds and rewrites the line, setting
discount to 180.00 (it was 0.00). -/
theorem C4_counterexample :
    checkoutDiscountE demoStore "c1" 150
      = .ok (storeSet demoStore "c1" (discountCore 150 demoCart)) ∧
    demoCart.lines.map CartLine.discount = [(0 : ℚ)] ∧
    (discountCore 150 demoCart).lines.map CartLine.discount = [(180 : ℚ)] ∧
    ¬ (150 : ℚ) ≤ 100 := by
  refine ⟨rfl, ?_, ?_, by norm_num⟩ <;>
    norm_num [discountCore, demoCart, addLineCore, seedTaxTable, riceItem]

/-- C4 (corrected): applyCartDiscount performs no range validation: for every
percent — inside or outside [0,100] — it succeeds on an existing cart and
rewrites the lines by the same formula. -/
theorem C4_discount_unvalidated (store : Store) (cartId : String) (percent : ℚ)
    (cart : Cart) (hget : storeGet store cartId = some cart) :
    checkoutDiscountE store cartId percent
      = .ok (storeSet store cartId (discountCore percent cart)) ∧
    storeGet (storeSet store cartId (discountCore percent cart)) cartId
      = some (discountCore percent cart) := by
  constructor
  · simp [checkoutDiscountE, hget]
  · exact storeGet_storeSet_self store cartId cart (discountCore percent cart) hget

/-- Witness for the corrected C4 at the one-line cart with percent 150. -/
theorem C4_witness :
    storeGet wStore "w" = some wCart ∧
    (checkoutDiscountE wStore "w" 150
        = .ok (storeSet wStore "w" (discountCore 150 wCart)) ∧
      storeGet (storeSet wStore "w" (discountCore 150 wCart)) "w"
        = some (discountCore 150 wCart)) :=
  ⟨rfl, C4_discount_unvalidated wStore "w" 150 wCart rfl⟩

/-- C5 counterexample: a tender with unrecognized method code FOO and amount
−5 is not rejected with InvalidTender: settlement succeeds, a FOO payment
method is created on the fly, and a payment record with amount −5 and status
SUCCESS is persisted for it. -/
theorem C5_counterexample :
    (checkoutCompleteE none emptyDb demoStore "c1" [⟨"FOO", -5, none⟩] "R3").db.methods
      = seedMethods ++ [{ code := "FOO", name := "FOO" }] ∧
    ((checkoutCompleteE none emptyDb demoStore "c1" [⟨"FOO", -5, none⟩] "R3").outcome.toOption.map
      Receipt.payments)
      = some [{ amount := -5, reference := none, status := "SUCCESS", methodCode := "FOO" }] :=
  ⟨by decide, by decide⟩

/-- C5 (corrected): no tender validation exists: settlement succeeds for
every payment list on an open non-empty cart, persisting one payment record
per tender with exactly the posted amount (zero and negative included) and
status SUCCESS; a method code matching no existing method's code or name
results in a payment-method record created on the fly. -/
theorem C5_tender_unvalidated (db : Db) (store : Store) (cartId : String)
    (payments : List PaymentReq) (rn : String) (cart : Cart)
    (hget : storeGet store cartId = some cart) (hne : cart.lines ≠ []) :
    (∃ r, (checkoutCompleteE none db store cartId payments rn).outcome = .ok r ∧
       r.payments.map PaymentRecord.amount = payments.map PaymentReq.amount ∧
       (r.payments.all fun p => p.status == "SUCCESS") = true) ∧
    ∀ m : String,
      db.methods.find? (fun pm => pm.code == methodNameOf m || pm.name == methodNameOf m)
        = none →
      (resolveMethod db.methods m).1
        = db.methods ++ [{ code := methodNameOf m, name := methodNameOf m }] := by
  have hie : cart.lines.isEmpty = false := by
    cases hl : cart.lines with
    | nil => exact absurd hl hne
    | cons a t => rfl
  constructor
  · simp only [checkoutCompleteE, hget, hie, Bool.false_eq_true, if_false,
      reduceCtorEq, reduceIte]
    exact ⟨_, rfl, buildPayments_amounts db.methods payments,
      buildPayments_statuses db.methods payments⟩
  · intro m hm
    simp [resolveMethod, hm]

/-- Witness for the corrected C5 with a FOO −5 tender on the one-line
cart. -/
theorem C5_witness :
    (storeGet wStore "w" = some wCart ∧ wCart.lines ≠ []) ∧
    ((∃ r, (checkoutCompleteE none emptyDb wStore "w" [⟨"FOO", -5, none⟩] "R3").outcome
         = .ok r ∧
       r.payments.map PaymentRecord.amount
         = [(⟨"FOO", -5, none⟩ : PaymentReq)].map PaymentReq.amount ∧
       (r.payments.all fun p => p.status == "SUCCESS") = true) ∧
     ∀ m : String,
       emptyDb.methods.find?
           (fun pm => pm.code == methodNameOf m || pm.name == methodNameOf m) = none →
       (resolveMethod emptyDb.methods m).1
         = emptyDb.methods ++ [{ code := methodNameOf m, name := methodNameOf m }]) :=
  ⟨⟨rfl, by decide⟩,
   C5_tender_unvalidated emptyDb wStore "w" [⟨"FOO", -5, none⟩] "R3" wCart rfl (by decide)⟩

/-- C7 counterexample: updateLine repricing a 5%-taxed line to unitPrice 0.10
(qty 1, no discount) stores taxAmount 0.005 = 1/200 exactly, which is not
round2(0.005) = 0.01: no rounding to two decimals happens at persistence. -/
theorem C7_counterexample :
    ((updateLineCore seedTaxTable (JsNum.num 0) none (some (1 / 10)) none tinyCart).toOption.map
      (fun c => c.lines.map CartLine.taxAmount)) = some [(1 / 200 : ℚ)] ∧
    round2 (1 / 200) = 1 / 100 ∧ (1 / 200 : ℚ) ≠ round2 (1 / 200) := by
  refine ⟨?_, ?_, ?_⟩
  · simp only [updateLineCore, jsIndex, tinyCart, tinyLine, effRate, seedTaxTable,
      Except.toOption]
    norm_num [repricedLine, effRate, seedTaxTable]
  · rw [round2]
    norm_num
  · rw [round2]
    norm_num

/-- C7 (corrected): the taxAmount stored on a repriced line (and copied
verbatim onto the persisted receipt line) is the exact, unrounded value
`(unitPrice*quantity − discount) * taxRatePercent / 100`; no round-half-up to
two decimals is applied anywhere. -/
theorem C7_tax_not_rounded (taxTable : TaxTable) (i : Nat) (q u d : Option ℚ)
    (cart : Cart) (line : CartLine)
    (h : cart.lines.get? i = some line)
    (hq : (Option.any (fun x => decide (x ≤ 0)) q) = false) :
    ∃ c2, updateLineCore taxTable (JsNum.num (i : ℚ)) q u d cart = .ok c2 ∧
      c2.lines.get? i = some (repricedLine taxTable line q u d) ∧
      (repricedLine taxTable line q u d).taxAmount
        = ((u.getD line.unitPrice) * (q.getD line.quantity) - d.getD line.discount)
          * (effRate taxTable line / 100) ∧
      (receiptLineOf (repricedLine taxTable line q u d)).taxAmount
        = (repricedLine taxTable line q u d).taxAmount := by
  have hi : jsIndex (JsNum.num (i : ℚ)) = some i := jsIndex_num_natCast i
  have hlt : i < cart.lines.length := (List.get?_eq_some.mp h).1
  refine ⟨{ cart with lines := cart.lines.set i (repricedLine taxTable line q u d) },
    ?_, ?_, rfl, rfl⟩
  · simp only [updateLineCore, hi, h, hq, Bool.false_eq_true, if_false]
  · simp [List.get?_eq_getElem?, List.getElem?_set_self, hlt]

/-- Witness for the corrected C7: repricing the 5%-taxed line to unitPrice
0.10 through updateLine. -/
theorem C7_witness :
    (tinyCart.lines.get? 0 = some tinyLine ∧
      (Option.any (fun x => decide (x ≤ 0)) (none : Option ℚ)) = false) ∧
    (∃ c2, updateLineCore seedTaxTable (JsNum.num ((0 : Nat) : ℚ)) none (some (1 / 10)) none
        tinyCart = .ok c2 ∧
      c2.lines.get? 0 = some (repricedLine seedTaxTable tinyLine none (some (1 / 10)) none) ∧
      (repricedLine seedTaxTable tinyLine none (some (1 / 10)) none).taxAmount
        = (((some (1 / 10) : Option ℚ).getD tinyLine.unitPrice)
            * ((none : Option ℚ).getD tinyLine.quantity)
            - ((none : Option ℚ).getD tinyLine.discount))
          * (effRate seedTaxTable tinyLine / 100) ∧
      (receiptLineOf (repricedLine seedTaxTable tinyLine none (some (1 / 10)) none)).taxAmount
        = (repricedLine seedTaxTable tinyLine none (some (1 / 10)) none).taxAmount) :=
  ⟨⟨rfl, rfl⟩,
   C7_tax_not_rounded seedTaxTable 0 none (some (1 / 10)) none tinyCart tinyLine rfl rfl⟩

/-- C9 counterexample: the add endpoint accepts qty −2 and produces a line
with negative quantity; settling that cart writes a stock entry with quantity
`-Math.abs(-2) = -2`, not the negation `2` of the line's quantity. -/
theorem C9_counterexample :
    checkoutAddE seedTaxTable [("c9", { id := "c9", lines := [] })] "c9" (some riceItem) (-2)
      = .ok [("c9", negCart)] ∧
    (checkoutCompleteE none emptyDb [("c9", negCart)] "c9" [] "R9").db.stock.map
        StockEntry.quantity = [(-2 : ℚ)] ∧
    negCart.lines.map (fun l => -l.quantity) = [(2 : ℚ)] ∧
    ((-2 : ℚ) = 2 → False) := by
  refine ⟨rfl, ?_, ?_, by norm_num⟩
  · have hstock : (checkoutCompleteE none emptyDb [("c9", negCart)] "c9" [] "R9").db.stock
        = [{ itemId := 1, quantity := -|(-2 : ℚ)|, unitCost := 0, type := "SALE",
             reference := "R9" }] := rfl
    rw [hstock]
    norm_num
  · norm_num [negCart, addLineCore, seedTaxTable, riceItem]

/-- C9 (corrected): after a successful settlement the cart is removed from
the store, so every subsequent operation on that cart id fails with
CartNotFound; exactly one stock entry is written per settled line with
reference equal to the receipt number and quantity equal to minus the
absolute value of the line's quantity — which equals the negation of the
quantity whenever the quantity is nonnegative. -/
theorem C9_settlement_retires_cart (db db2 : Db) (store : Store) (cartId : String)
    (payments payments2 : List PaymentReq) (rn rn2 : String) (cart : Cart)
    (taxTable : TaxTable) (itemLookup : Option Item) (qty percent : ℚ)
    (lineIndex : JsNum) (q u d : Option ℚ) (store2 : Store)
    (hget : storeGet store cartId = some cart) (hne : cart.lines ≠ [])
    (hs2 : (checkoutCompleteE none db store cartId payments rn).store = store2) :
    storeGet store2 cartId = none ∧
    checkoutAddE taxTable store2 cartId itemLookup qty = .error .cartNotFound ∧
    checkoutDiscountE store2 cartId percent = .error .cartNotFound ∧
    updateLineE taxTable store2 cartId lineIndex q u d = .error .cartNotFound ∧
    removeLineE store2 cartId lineIndex = .error .cartNotFound ∧
    (checkoutCompleteE none db2 store2 cartId payments2 rn2).outcome = .error .cartNotFound ∧
    (checkoutCompleteE none db store cartId payments rn).db.stock
      = db.stock ++ cart.lines.map (stockEntryOf rn) ∧
    (cart.lines.map (stockEntryOf rn)).map StockEntry.reference
      = cart.lines.map (fun _ => rn) ∧
    ((∀ l ∈ cart.lines, 0 ≤ l.quantity) →
      (cart.lines.map (stockEntryOf rn)).map StockEntry.quantity
        = cart.lines.map (fun l => -l.quantity)) := by
  have hie : cart.lines.isEmpty = false := by
    cases hl : cart.lines with
    | nil => exact absurd hl hne
    | cons a t => rfl
  have hstore : store2 = storeDelete store cartId := by
    rw [← hs2]
    simp [checkoutCompleteE, hget, hie]
  have hnone : storeGet store2 cartId = none := by
    rw [hstore]
    exact storeGet_storeDelete_self store cartId
  refine ⟨hnone, ?_, ?_, ?_, ?_, ?_, ?_, ?_, ?_⟩
  · simp [checkoutAddE, hnone]
  · simp [checkoutDiscountE, hnone]
  · simp [updateLineE, hnone]
  · simp [removeLineE, hnone]
  · simp [checkoutCompleteE, hnone]
  · simp [checkoutCompleteE, hget, hie]
  · rw [List.map_map]
    rfl
  · intro hq
    rw [List.map_map]
    refine List.map_congr_left (fun l hl => ?_)
    show -|l.quantity| = -l.quantity
    rw [abs_of_nonneg (hq l hl)]

/-- Witness for the corrected C9 at the one-line cart. -/
theorem C9_witness :
    (storeGet wStore "w" = some wCart ∧ wCart.lines ≠ [] ∧
      (checkoutCompleteE none emptyDb wStore "w" [] "R9").store = storeDelete wStore "w") ∧
    (storeGet (storeDelete wStore "w") "w" = none ∧
     checkoutAddE seedTaxTable (storeDelete wStore "w") "w" (some riceItem) 1
       = .error .cartNotFound ∧
     checkoutDiscountE (storeDelete wStore "w") "w" 10 = .error .cartNotFound ∧
     updateLineE seedTaxTable (storeDelete wStore "w") "w" (JsNum.num 0) (some 1) none none
       = .error .cartNotFound ∧
     removeLineE (storeDelete wStore "w") "w" (JsNum.num 0) = .error .cartNotFound ∧
     (checkoutCompleteE none emptyDb (storeDelete wStore "w") "w" [] "R10").outcome
       = .error .cartNotFound ∧
     (checkoutCompleteE none emptyDb wStore "w" [] "R9").db.stock
       = emptyDb.stock ++ wCart.lines.map (stockEntryOf "R9") ∧
     (wCart.lines.map (stockEntryOf "R9")).map StockEntry.reference
       = wCart.lines.map (fun _ => "R9") ∧
     ((∀ l ∈ wCart.lines, 0 ≤ l.quantity) →
       (wCart.lines.map (stockEntryOf "R9")).map StockEntry.quantity
         = wCart.lines.map (fun l => -l.quantity))) :=
  ⟨⟨rfl, by decide, rfl⟩,
   C9_settlement_retires_cart emptyDb emptyDb wStore "w" [] [] "R9" "R10" wCart
     seedTaxTable (some riceItem) 1 10 (JsNum.num 0) (some 1) none none
     (storeDelete wStore "w") rfl (by decide) rfl⟩

end Pos
